import Mathlib

/-!
Verification of the O-Lang resolver conformance engine.

The JavaScript engine is shallowly embedded: JSON-like JavaScript values
become the inductive type `JSVal`, the metadata/runtime validators become
Lean functions over `JSVal`, the assertion runner becomes a pure function
producing a `Report`, and the asynchronous observation harness becomes a
function from a resolver oracle (one outcome per trial) to an
`InvocationContext`.

Modelling decisions, stated once here:
* JavaScript numbers are modelled as `Int` (the engine only compares and
  serializes integral values; no NaN/float behaviour is exercised).
* Property access on `null`/`undefined` throws in JavaScript; `JSVal.get`
  totalizes it to `undefined`.  Every access in the engine is either
  optional-chained (`?.`, for which `undefined` is the exact semantics) or
  guarded by a truthiness check, so the difference is not observable on the
  paths verified here.
* `===` on two objects, arrays or functions is reference equality; the
  engine only ever compares values originating from different sources
  (JSON specs vs. loaded modules), so `jsStrictEq` returns `false` for
  such operands.
* Object keys are own, unique keys (as produced by object literals and
  `JSON.parse`); prototype-chain lookups are not modelled.
-/

/-- JSON-like JavaScript runtime values (functions are opaque: the engine
never calls a function reached through a `JSVal`). -/
inductive JSVal where
  | undef
  | null
  | bool (b : Bool)
  | num (n : Int)
  | str (s : String)
  | fn
  | arr (xs : List JSVal)
  | obj (fields : List (String × JSVal))

instance : Inhabited JSVal := ⟨JSVal.undef⟩

/-- JavaScript truthiness. -/
def truthy : JSVal → Bool
  | .undef => false
  | .null => false
  | .bool b => b
  | .num n => n != 0
  | .str s => s != ""
  | .fn => true
  | .arr _ => true
  | .obj _ => true

/-- The JavaScript `typeof` operator. -/
def typeofJS : JSVal → String
  | .undef => "undefined"
  | .null => "object"
  | .bool _ => "boolean"
  | .num _ => "number"
  | .str _ => "string"
  | .fn => "function"
  | .arr _ => "object"
  | .obj _ => "object"

/-- Source operator `Array.isArray`. -/
def isArray : JSVal → Bool
  | .arr _ => true
  | _ => false

def isNull : JSVal → Bool
  | .null => true
  | _ => false

/-- Loose `== null` (true for both `null` and `undefined`). -/
def isNullish : JSVal → Bool
  | .null => true
  | .undef => true
  | _ => false

/-- Source operator `a || b`: `a` when truthy, else `b`. -/
def jsOrElse (a b : JSVal) : JSVal := if truthy a then a else b

/-- Elements of an array value.  The engine only applies array methods to
values it has either constructed as arrays or guarded with
`Array.isArray`; a non-array here (which would throw in JavaScript) yields
`[]`. -/
def jsElems : JSVal → List JSVal
  | .arr xs => xs
  | _ => []

/-- Strict equality `===`.  Primitive operands compare by value; two
object/array/function operands compare by reference, which is `false` for
every comparison the engine performs (see the header comment). -/
def jsStrictEq : JSVal → JSVal → Bool
  | .undef, .undef => true
  | .null, .null => true
  | .bool a, .bool b => a == b
  | .num a, .num b => a == b
  | .str a, .str b => a == b
  | _, _ => false

/-- Property read `v[k]` / `v.k`.  Arrays expose their indices and
`length`; strings expose `length`; other primitives have no own
properties.  On `null`/`undefined` JavaScript throws; totalized to
`undefined` (see the header comment). -/
def JSVal.get : JSVal → String → JSVal
  | .obj fs, k =>
      match fs.find? (fun f => f.1 == k) with
      | some f => f.2
      | none => .undef
  | .arr xs, k =>
      if k == "length" then .num xs.length
      else
        match k.toNat? with
        | some i => if h : i < xs.length then xs.get ⟨i, h⟩ else .undef
        | none => .undef
  | .str s, k => if k == "length" then .num s.length else .undef
  | _, _ => (.undef)

/-- The `in` operator restricted to own keys (prototype chain not
modelled). -/
def JSVal.hasKey : JSVal → String → Bool
  | .obj fs, k => fs.any (fun f => f.1 == k)
  | .arr xs, k =>
      k == "length" ||
        (match k.toNat? with
         | some i => i < xs.length
         | none => false)
  | _, _ => false

mutual
/-- JavaScript `ToString` coercion (used by template literals, computed
property keys and `RegExp.test`). -/
def jsToString : JSVal → String
  | .undef => "undefined"
  | .null => "null"
  | .bool b => if b then "true" else "false"
  | .num n => toString n
  | .str s => s
  | .fn => "function"
  | .arr xs => jsToStringElems xs
  | .obj _ => "[object Object]"

/-- Models `Array.prototype.toString`: elements joined by `,`, with `null` and
`undefined` elements rendered empty. -/
def jsToStringElems : List JSVal → String
  | [] => ""
  | x :: xs =>
      (match x with
       | .null => ""
       | .undef => ""
       | v => jsToString v) ++ (if xs.isEmpty then "" else ",") ++ jsToStringElems xs
end

/-- JSON string quoting for `JSON.stringify`. -/
def jsonQuote (s : String) : String :=
  "\"" ++ String.join (s.data.map (fun c =>
    if c = '"' then "\\\""
    else if c = '\\' then "\\\\"
    else if c = '\n' then "\\n"
    else if c = '\t' then "\\t"
    else if c = '\r' then "\\r"
    else String.singleton c)) ++ "\""

mutual
/-- Models `JSON.stringify`.  `none` models the JavaScript result `undefined`
(for `undefined` and function values). -/
def jsonStr : JSVal → Option String
  | .undef => none
  | .fn => none
  | .null => some "null"
  | .bool b => some (if b then "true" else "false")
  | .num n => some (toString n)
  | .str s => some (jsonQuote s)
  | .arr xs => some ("[" ++ jsonStrElems xs ++ "]")
  | .obj fs => some ("\x7b" ++ jsonStrFields fs ++ "\x7d")

/-- Array elements: `undefined`/function elements serialize as `null`. -/
def jsonStrElems : List JSVal → String
  | [] => ""
  | x :: xs =>
      ((jsonStr x).getD "null") ++ (if xs.isEmpty then "" else ",") ++ jsonStrElems xs

/-- Object entries: keys whose value serializes to `undefined` are
dropped. -/
def jsonStrFields : List (String × JSVal) → String
  | [] => ""
  | (k, v) :: fs =>
      match jsonStr v with
      | none => jsonStrFields fs
      | some s =>
          jsonQuote k ++ ":" ++ s ++
            (if (jsonStrFields fs).isEmpty then "" else ",") ++ jsonStrFields fs
end

/-- Models `String.prototype.includes` with a fixed non-empty pattern. -/
def strIncludes (s pat : String) : Bool := (s.splitOn pat).length > 1

/-- Relational `<=` on the value shapes the engine compares (numbers with
numbers; exotic cross-type coercions are not exercised and yield
`false`). -/
def jsLe : JSVal → JSVal → Bool
  | .num a, .num b => a ≤ b
  | .str a, .str b => a ≤ b
  | _, _ => false

/-!  Metadata validators (pure predicates over a resolver declaration). -/

/-- Source `checkResolverHasField`: `resolverMeta[assertion.field] === assertion.expected`. -/
def checkResolverHasField (resolverMeta assertion : JSVal) : Bool :=
  jsStrictEq (resolverMeta.get (jsToString (assertion.get "field"))) (assertion.get "expected")

/-- Source `checkResolverInputsValid`: `inputs` is an array whose every element is
truthy with string `name`, string `type` and boolean `required`. -/
def checkResolverInputsValid (resolverMeta : JSVal) : Bool :=
  let inputs := resolverMeta.get "inputs"
  isArray inputs &&
    (jsElems inputs).all (fun i =>
      truthy i &&
      typeofJS (i.get "name") == "string" &&
      typeofJS (i.get "type") == "string" &&
      typeofJS (i.get "required") == "boolean")

/-- Source `checkResolverOutputsValid`: like inputs, without `required`. -/
def checkResolverOutputsValid (resolverMeta : JSVal) : Bool :=
  let outputs := resolverMeta.get "outputs"
  isArray outputs &&
    (jsElems outputs).all (fun o =>
      truthy o &&
      typeofJS (o.get "name") == "string" &&
      typeofJS (o.get "type") == "string")

/-- The identifier pattern `^[a-zA-Z][a-zA-Z0-9_]*$`. -/
def identPatternTest (s : String) : Bool :=
  match s.data with
  | [] => false
  | c :: cs => c.isAlpha && cs.all (fun d => d.isAlphanum || d == '_')

/-- Source `checkFieldNamesNormalized`: every `name` in
`resolverMeta[assertion.field] || []` matches the identifier pattern
(`RegExp.test` coerces its argument to a string). -/
def checkFieldNamesNormalized (resolverMeta assertion : JSVal) : Bool :=
  let items := jsOrElse (resolverMeta.get (jsToString (assertion.get "field"))) (.arr [])
  isArray items &&
    (jsElems items).all (fun item => identPatternTest (jsToString (item.get "name")))

/-- Source `checkResolverFailuresValid`: falsy `failures` fails outright; otherwise
`failures` must be an array whose every element is truthy with string
`code` and numeric `retries`. -/
def checkResolverFailuresValid (resolverMeta : JSVal) : Bool :=
  let failures := resolverMeta.get "failures"
  if !truthy failures then false
  else
    isArray failures &&
      (jsElems failures).all (fun f =>
        truthy f &&
        typeofJS (f.get "code") == "string" &&
        typeofJS (f.get "retries") == "number")

/-!  Runtime validators. -/

/-- Source `checkResolverIsCallable`: `typeof resolver === 'function'`. -/
def checkResolverIsCallable (resolver : JSVal) : Bool :=
  typeofJS resolver == "function"

/-- Source `checkFailureCodeDeclared`: a falsy `observedError?.code` passes;
otherwise the code must be `===` to some element of
`(resolverMeta.failures || []).map(f => f.code)`. -/
def checkFailureCodeDeclared (observedError resolverMeta : JSVal) : Bool :=
  if !truthy (observedError.get "code") then true
  else
    (jsElems (jsOrElse (resolverMeta.get "failures") (.arr []))).any
      (fun f => jsStrictEq (f.get "code") (observedError.get "code"))

/-- Source `checkRejectsMissingRequiredInput`: passes if the invocation threw, or
the output is a non-nullish, non-array object containing an `error` key. -/
def checkRejectsMissingRequiredInput (invocationResult : JSVal) : Bool :=
  if truthy (invocationResult.get "threw") then true
  else
    let output := invocationResult.get "output"
    !isNullish output &&
      typeofJS output == "object" &&
      !isArray output &&
      output.hasKey "error"

/-- Source `checkRetryCountWithinLimit`: find the first declared failure whose
`code` is `===` the observed error code; a falsy find result passes,
otherwise `observedRetries <= failure.retries`. -/
def checkRetryCountWithinLimit (observedRetries resolverMeta errorCode : JSVal) : Bool :=
  let failure :=
    (jsElems (jsOrElse (resolverMeta.get "failures") (.arr []))).find?
      (fun f => jsStrictEq (f.get "code") errorCode)
  match failure with
  | none => true
  | some f => if !truthy f then true else jsLe observedRetries (f.get "retries")

/-- Source `checkOutputIsObject`: the output must be a truthy non-array object;
when it carries an `output` key (kernel mode) the nested value must be a
non-null, non-array object. -/
def checkOutputIsObject (output : JSVal) : Bool :=
  if !truthy output || typeofJS output != "object" || isArray output then false
  else if output.hasKey "output" then
    let o := output.get "output"
    !isNull o && typeofJS o == "object" && !isArray o
  else true

/-- Source `checkOutputFieldsMatchContract`: returns either the plain `true`
boolean or a rich `{passed:false, details:{...}}` object, exactly as the
source composes them. -/
def checkOutputFieldsMatchContract (output resolverMeta : JSVal) : JSVal :=
  if !truthy output || typeofJS output != "object" then
    .obj [("passed", .bool false),
          ("details", .obj [("reason", .str "no_output"), ("actualOutput", output)])]
  else
    let actualOutput := if output.hasKey "output" then output.get "output" else output
    if !truthy actualOutput || typeofJS actualOutput != "object" then
      .obj [("passed", .bool false),
            ("details", .obj [("reason", .str "invalid_output_shape"), ("actualOutput", output)])]
    else
      let declaredNames :=
        (jsElems (jsOrElse (resolverMeta.get "outputs") (.arr []))).map (fun o => o.get "name")
      let missingFields :=
        declaredNames.filter (fun name => !(actualOutput.hasKey (jsToString name)))
      if !missingFields.isEmpty then
        .obj [("passed", .bool false),
              ("details", .obj [("reason", .str "missing_fields"),
                                ("missingFields", .arr missingFields),
                                ("actualOutput", actualOutput),
                                ("expectedFields", .arr declaredNames)])]
      else .bool true

/-- Source `checkDeterministicOutput`: fewer than 2 recorded outputs pass; with
more, every later output must `JSON.stringify` to the same string as the
first.  (The engine always supplies the `ctx.outputs` array here.) -/
def checkDeterministicOutput (results : List JSVal) : Bool :=
  if results.length < 2 then true
  else
    match results with
    | [] => true
    | r0 :: rest => rest.all (fun r => jsonStr r == jsonStr r0)

/-- Source `checkNoGlobalMutation`: an unconditional pass (unimplemented stub in
the source). -/
def checkNoGlobalMutation : Bool := true

/-!  Guidance generator. -/

/-- Interpolation of a `JSON.stringify` result into a template literal
(`undefined` interpolates as the text `undefined`). -/
def jsonStrTmpl (v : JSVal) : String := (jsonStr v).getD "undefined"

/-- The bank-family remediation tip (template-literal content). -/
def bankTip : String :=
  "\n💡 Bank resolver tip:\n- Your capability.js must return \x7b balance: integer \x7d\n- Create test/bank.db with customer_id=12345\n- Use exampleAction: \"Action bank-account-lookup customer_id=12345 bank_db_path=./test/bank.db\""

/-- The telegram-family remediation tip (template-literal content). -/
def telegramTip : String :=
  "\n💡 Telegram resolver tip:\n- Your exampleAction must exactly match your hardcoded test string\n- Return \x7b status: \"sent\" \x7d for the test action"

/-- The generic fallback message. -/
def genericGuidance : String := "Assertion failed. Check your resolver implementation."

/-- Source `getGuidanceMessage(assertionType, details, resolverMeta)`:
contextual remediation text for a failed assertion.  The template-literal
bodies are embedded with their surrounding whitespace already removed by
the source's `.trim()`. -/
def getGuidanceMessage (assertionType details resolverMeta : JSVal) : String :=
  let resolverName := jsOrElse (resolverMeta.get "resolverName") (.str "unknown")
  if jsStrictEq assertionType (.str "output_fields_match_contract") then
    if jsStrictEq (details.get "reason") (.str "missing_fields") then
      let resolverTips :=
        match resolverName with
        | .str s =>
            if strIncludes s "bank" then bankTip
            else if strIncludes s "telegram" then telegramTip
            else ""
        | _ => ""   -- a non-string truthy resolverName has no `includes` method
      "🔍 What happened?\nYour resolver returned: " ++
        jsonStrTmpl (details.get "actualOutput") ++
        "\nBut your resolver.js declares outputs: [" ++
        String.intercalate ", "
          ((jsElems (details.get "expectedFields")).map (fun f => "\"" ++ jsToString f ++ "\"")) ++
        "]\n\n💡 How to fix:\n1. Ensure your resolver returns the correct output structure\n2. Check your exampleAction matches your test logic\n3. Verify your test data exists" ++
        resolverTips ++
        "\n\n📘 Learn more: https://o-lang.org/docs/conformance/output-contract"
    else genericGuidance
  else if jsStrictEq assertionType (.str "rejects_missing_required_input") then
    "🔍 What happened?\nYour resolver didn\x27t reject invalid input properly.\n\n💡 How to fix:\n- Return \x7b error: \"INVALID_INPUT\" \x7d for empty/missing inputs\n- Return undefined only for non-matching actions (e.g., Telegram actions sent to bank resolver)\n\n📘 Learn more: https://o-lang.org/docs/conformance/input-validation"
  else if jsStrictEq assertionType (.str "output_is_object") then
    "🔍 What happened?\nYour resolver didn\x27t return an object.\n\n💡 How to fix:\n- Return \x7b output: \x7b ... \x7d \x7d for kernel mode\n- Or return \x7b field: value \x7d for direct mode\n- Never return primitives, arrays, or undefined for valid actions\n\n📘 Learn more: https://o-lang.org/docs/conformance/output-contract"
  else genericGuidance

/-!  Assertion handler registry. -/

/-- Source dispatch table `assertionHandlers`: maps an assertion-type key
to a handler taking `(target, assertion, status)`.  Runtime handlers read
the invocation context's fields off the target, exactly as the arrow
functions in the source do. -/
def assertionHandlers (key : String) : Option (JSVal → JSVal → JSVal → JSVal) :=
  match key with
  | "resolver_has_field" =>
      some fun target assertion _ => .bool (checkResolverHasField target assertion)
  | "resolver_inputs_valid" =>
      some fun target _ _ => .bool (checkResolverInputsValid target)
  | "resolver_outputs_valid" =>
      some fun target _ _ => .bool (checkResolverOutputsValid target)
  | "field_names_normalized" =>
      some fun target assertion _ => .bool (checkFieldNamesNormalized target assertion)
  | "resolver_failures_valid" =>
      some fun target _ _ => .bool (checkResolverFailuresValid target)
  | "resolver_is_callable" =>
      some fun ctx _ _ => .bool (checkResolverIsCallable (ctx.get "resolver"))
  | "resolver_failure_declared" =>
      some fun ctx _ _ => .bool (checkFailureCodeDeclared (ctx.get "error") (ctx.get "resolverMeta"))
  | "rejects_missing_required_input" =>
      some fun ctx _ _ => .bool (checkRejectsMissingRequiredInput ctx)
  | "retry_count_within_declared_limit" =>
      some fun ctx _ _ =>
        .bool (checkRetryCountWithinLimit (ctx.get "retryCount") (ctx.get "resolverMeta")
          ((ctx.get "error").get "code"))
  | "output_is_object" =>
      some fun ctx _ _ => .bool (checkOutputIsObject (ctx.get "output"))
  | "output_fields_match_contract" =>
      some fun ctx _ _ => checkOutputFieldsMatchContract (ctx.get "output") (ctx.get "resolverMeta")
  | "deterministic_output" =>
      some fun ctx _ _ => .bool (checkDeterministicOutput (jsElems (ctx.get "outputs")))
  | "no_global_state_mutation" =>
      some fun _ _ _ => .bool checkNoGlobalMutation
  | _ => none

/-!  Assertion runner. -/

/-- One collected failure: `{id, severity, message}`.  `message` is a
`JSVal` because the source stores either a composed string or the
assertion's own `description` value there. -/
structure FailureEntry where
  id : JSVal
  severity : JSVal
  message : JSVal

/-- The report returned by the assertion runner.  For the no-assertions
report the source omits the `failures` key; that absent field is modelled
as the empty list. -/
structure Report where
  ok : Bool
  message : String
  failures : List FailureEntry

/-- A loaded test spec, per the data model: `test_id` and the ordered
assertion list (each assertion a JSON object). -/
structure TestSpec where
  test_id : JSVal := .undef
  assertions : List JSVal := []

/-- Destructuring default `severity = "fatal"` (applies only when the
field is `undefined`). -/
def severityOf (a : JSVal) : JSVal :=
  match a.get "severity" with
  | .undef => .str "fatal"
  | s => s

/-- Result normalization from the runner: a non-null object result is
rich (`{passed, details}`), anything else is the boolean-ish result
itself. -/
def normalizedPassed (result : JSVal) : JSVal :=
  if typeofJS result == "object" && !isNull result then result.get "passed" else result

/-- The `details` component of a normalized result (`null` for a plain
result). -/
def normalizedDetails (result : JSVal) : JSVal :=
  if typeofJS result == "object" && !isNull result then result.get "details" else .null

/-- Failure-message composition from the runner's loop body:
`description || "Assertion failed: <id>"`, overridden by the guidance
generator whenever rich details are present. -/
def failMessage (target status a result : JSVal) : JSVal :=
  let details := normalizedDetails result
  if truthy details then
    .str (getGuidanceMessage (a.get "type") details (jsOrElse (status.get "resolverMeta") target))
  else
    jsOrElse (a.get "description") (.str ("Assertion failed: " ++ jsToString (a.get "id")))

/-- One iteration of the runner's loop: the failure entry the assertion
contributes, if any.  An unknown type contributes an
`Unknown assertion type` entry; a known type contributes an entry exactly
when its normalized result is falsy. -/
def processAssertion (target status a : JSVal) : Option FailureEntry :=
  match assertionHandlers (jsToString (a.get "type")) with
  | none =>
      some { id := a.get "id", severity := severityOf a,
             message := .str ("Unknown assertion type: " ++ jsToString (a.get "type")) }
  | some handler =>
      let result := handler target a status
      if truthy (normalizedPassed result) then none
      else
        some { id := a.get "id", severity := severityOf a,
               message := failMessage target status a result }

/-- Source `runAssertions(testSpec, target, status = {})`: an empty
assertion list short-circuits to a pass; otherwise every assertion is
processed and the failures are aggregated. -/
def runAssertions (testSpec : TestSpec) (target : JSVal) (status : JSVal := .obj []) : Report :=
  if testSpec.assertions.isEmpty then
    { ok := true, message := "No assertions defined", failures := [] }
  else
    let failures := testSpec.assertions.filterMap (processAssertion target status)
    { ok := failures.isEmpty
      message :=
        if failures.isEmpty then "All assertions passed"
        else
          String.intercalate "\n\n" (failures.map (fun f =>
            "[" ++ jsToString f.severity ++ "] " ++ jsToString f.id ++ ": " ++ jsToString f.message))
      failures := failures }

/-!  Runtime observation harness.

The harness works on the typed data model of the spec: the declaration's
`failures` entries carry a string `code` and an integral `retries`, a
thrown error optionally carries a string `code`, and the resolver is an
asynchronous callable.  The resolver is embedded as an oracle giving the
outcome of each sequential trial (the trials all receive the same input;
the index models hidden state across the strictly sequential awaits). -/

/-- One declared failure mode: `{code, retries}`. -/
structure DeclFailure where
  code : String
  retries : Int
deriving DecidableEq

/-- The resolver declaration fields the harness reads: `failures` (absent
modelled as `none`) and `exampleAction` (absent modelled as `undef`). -/
structure ResolverMeta where
  failures : Option (List DeclFailure) := none
  exampleAction : JSVal := (.undef)

/-- A thrown error value, per the declared error interface
`{code?: string, message: string}`. -/
structure JSErr where
  code : Option String
  message : String
deriving DecidableEq

/-- Truthiness of `err.code` under the typed error shape. -/
def errCodeTruthy : Option String → Bool
  | some c => c != ""
  | none => false

/-- The only error the harness throws to its caller. -/
inductive HarnessError where
  | missingExampleAction
deriving DecidableEq

/-- The invocation context built by the harness (the back-reference to the
resolver callable is omitted: it is never read by the embedded logic). -/
structure InvocationContext where
  resolverMeta : ResolverMeta
  output : JSVal := .null
  outputs : List JSVal := []
  error : Option JSErr := none
  threw : Bool := false
  retryCount : Int := 0

/-- A resolver oracle: the outcome of trial `i` on a given input. -/
def ResolverFun := Nat → JSVal → Except JSErr JSVal

/-- Input construction from the harness's head: the dynamic-example marker
selects `resolverMeta.exampleAction` (throwing the configuration error
when that is falsy); otherwise `fixture?.invoke || {}`. -/
def constructedInput (resolverMeta : ResolverMeta) (fixture : JSVal) :
    Except HarnessError JSVal :=
  if jsStrictEq (fixture.get "invoke") (.str "__USE_RESOLVER_EXAMPLE_ACTION__") then
    if truthy resolverMeta.exampleAction then .ok resolverMeta.exampleAction
    else .error .missingExampleAction
  else .ok (jsOrElse (fixture.get "invoke") (.obj []))

/-- The `catch` block of the trial loop: record the thrown error, and set
`retryCount` from the first declared failure matching a truthy
`err.code`. -/
def recordThrow (resolverMeta : ResolverMeta) (err : JSErr) (ctx : InvocationContext) :
    InvocationContext :=
  let ctx1 := { ctx with threw := true, error := some err }
  if errCodeTruthy err.code then
    match (resolverMeta.failures.getD []).find?
        (fun f => f.code == (err.code.getD "")) with
    | some decl => { ctx1 with retryCount := decl.retries }
    | none => ctx1
  else ctx1

/-- The trial loop body: on success append the result and continue; on a
thrown error record it and stop (the source's `break`). -/
def observeTrials (resolver : ResolverFun) (resolverMeta : ResolverMeta) (input : JSVal) :
    Nat → Nat → InvocationContext → InvocationContext
  | 0, _, ctx => ctx
  | fuel + 1, i, ctx =>
      match resolver i input with
      | .ok result =>
          observeTrials resolver resolverMeta input fuel (i + 1)
            { ctx with output := result, outputs := ctx.outputs ++ [result] }
      | .error err => recordThrow resolverMeta err ctx

/-- Source `invokeResolverWithObservation(resolver, resolverMeta,
testSpec, fixture)`: builds the input, chooses 3 trials for the
determinism test and 1 otherwise, and drives the trial loop over a fresh
context. -/
def invokeResolverWithObservation (resolver : ResolverFun) (resolverMeta : ResolverMeta)
    (testSpec : TestSpec) (fixture : JSVal) : Except HarnessError InvocationContext :=
  match constructedInput resolverMeta fixture with
  | .error e => .error e
  | .ok input =>
      let runs := if jsStrictEq testSpec.test_id (.str "R-011-determinism") then 3 else 1
      .ok (observeTrials resolver resolverMeta input runs 0 { resolverMeta := resolverMeta })

/-!  Suite executor fragments relevant to the claims. -/

/-- Line `const resolverMeta = resolver.resolverDeclaration || resolver;`
of `runAllTests`: the unwrapping applied to the runtime resolver
argument. -/
def resolverMetaOf (resolver : JSVal) : JSVal :=
  jsOrElse (resolver.get "resolverDeclaration") resolver

/-- The static-contract branch of `runAllTests`: the loaded contract
module is passed to the assertion runner as the target, unchanged, with
the default empty status. -/
def staticSuiteReport (testSpec : TestSpec) (loadedModule : JSVal) : Report :=
  runAssertions testSpec loadedModule (.obj [])

/-!  Claim-side renderings.

Each `...PerClaim` definition is modelled from the wording of a spec
claim (not from the source), for comparison with the source-derived
definition above it. -/

/-- Modelled from the claim wording for `resolver_failures_valid`: the
`failures` field is a non-empty sequence in which every element has a
string `code` and a numeric `retries` (an absent field fails). -/
def failuresValidPerClaim (resolverMeta : JSVal) : Bool :=
  match resolverMeta.get "failures" with
  | .arr xs =>
      !xs.isEmpty &&
        xs.all (fun f =>
          typeofJS (f.get "code") == "string" && typeofJS (f.get "retries") == "number")
  | _ => false

/-- Modelled from the amended claim for `resolver_failures_valid`: the
`failures` field is an array, possibly empty, in which every element is
truthy with a string `code` and a numeric `retries`; anything else
(including an absent field) fails. -/
def failuresValidAmended (resolverMeta : JSVal) : Bool :=
  match resolverMeta.get "failures" with
  | .arr xs =>
      xs.all (fun f =>
        truthy f &&
        typeofJS (f.get "code") == "string" && typeofJS (f.get "retries") == "number")
  | _ => false

/-- C3 counterexample: a declaration whose `failures` is the empty array
passes `checkResolverFailuresValid` (the empty array is truthy and
`every` over it is vacuously true), while the claim demands that only a
non-empty sequence passes. -/
theorem resolver_failures_valid_empty_array_passes :
    checkResolverFailuresValid (JSVal.obj [("failures", JSVal.arr [])]) = true ∧
    failuresValidPerClaim (JSVal.obj [("failures", JSVal.arr [])]) = false :=
  ⟨rfl, rfl⟩

/-- C3 (amended): `checkResolverFailuresValid` passes exactly when the
declaration's `failures` field is an array — possibly empty — whose every
element is truthy with a string `code` and a numeric `retries`; an absent
(or otherwise non-array) field fails. -/
theorem resolver_failures_valid_characterization (resolverMeta : JSVal) :
    checkResolverFailuresValid resolverMeta = failuresValidAmended resolverMeta := by
  unfold checkResolverFailuresValid failuresValidAmended
  cases h : resolverMeta.get "failures" <;>
    simp [truthy, isArray, jsElems]

/-- Modelled from the claim wording for `resolver_failure_declared`: pass
when no error occurred (the context's `error` is null); otherwise pass
exactly when the thrown error's `code` appears among
`declaration.failures[].code`. -/
def failureDeclaredPerClaim (observedError resolverMeta : JSVal) : Bool :=
  if isNullish observedError then true
  else
    (jsElems (jsOrElse (resolverMeta.get "failures") (.arr []))).any
      (fun f => jsStrictEq (f.get "code") (observedError.get "code"))

/-- C4 counterexample: an error object that carries no `code` field passes
`checkFailureCodeDeclared` even though its (undefined) code appears
nowhere among the declared failure codes, contradicting the claim's
"otherwise the thrown error's code must appear in
`declaration.failures[].code`". -/
theorem failure_code_declared_codeless_error_passes :
    checkFailureCodeDeclared (JSVal.obj [("message", JSVal.str "x")])
        (JSVal.obj [("failures", JSVal.arr [JSVal.obj [("code", JSVal.str "NOT_FOUND"), ("retries", JSVal.num 2)]])]) = true ∧
    failureDeclaredPerClaim (JSVal.obj [("message", JSVal.str "x")])
        (JSVal.obj [("failures", JSVal.arr [JSVal.obj [("code", JSVal.str "NOT_FOUND"), ("retries", JSVal.num 2)]])]) = false :=
  ⟨rfl, rfl⟩

/-- C4 (amended): `checkFailureCodeDeclared` passes whenever no error
occurred or the thrown error carries no truthy `code`; otherwise it
passes exactly when the code is strictly equal to the `code` of some
element of `declaration.failures` (an absent `failures` list declares
nothing). -/
theorem failure_code_declared_characterization (observedError resolverMeta : JSVal) :
    (isNullish observedError = true → checkFailureCodeDeclared observedError resolverMeta = true) ∧
    (truthy (observedError.get "code") = false →
      checkFailureCodeDeclared observedError resolverMeta = true) ∧
    (truthy (observedError.get "code") = true →
      (checkFailureCodeDeclared observedError resolverMeta = true ↔
        ∃ f ∈ jsElems (jsOrElse (resolverMeta.get "failures") (.arr [])),
          jsStrictEq (f.get "code") (observedError.get "code") = true)) := by
  refine ⟨?_, ?_, ?_⟩
  · intro h
    have hc : observedError.get "code" = JSVal.undef := by
      cases observedError <;> simp_all [isNullish, JSVal.get]
    simp [checkFailureCodeDeclared, hc, truthy]
  · intro h
    simp [checkFailureCodeDeclared, h]
  · intro h
    simp [checkFailureCodeDeclared, h, List.any_eq_true]

/-- C4 amended witness: the spec's scenario — a thrown
`{code:"TIMEOUT"}` with no `TIMEOUT` entry among the declared failures —
fails the validator. -/
theorem failure_code_declared_characterization_witness :
    checkFailureCodeDeclared (JSVal.obj [("code", JSVal.str "TIMEOUT")])
        (JSVal.obj [("failures", JSVal.arr [JSVal.obj [("code", JSVal.str "NOT_FOUND"), ("retries", JSVal.num 2)]])]) = true ↔
      ∃ f ∈ jsElems (jsOrElse ((JSVal.obj [("failures", JSVal.arr [JSVal.obj [("code", JSVal.str "NOT_FOUND"), ("retries", JSVal.num 2)]])]).get "failures") (.arr [])),
        jsStrictEq (f.get "code") ((JSVal.obj [("code", JSVal.str "TIMEOUT")]).get "code") = true :=
  (failure_code_declared_characterization
    (JSVal.obj [("code", JSVal.str "TIMEOUT")])
    (JSVal.obj [("failures", JSVal.arr [JSVal.obj [("code", JSVal.str "NOT_FOUND"), ("retries", JSVal.num 2)]])])).2.2
    (by decide)

/-- C8: `checkDeterministicOutput` passes trivially on fewer than 2
recorded outputs; on 2 or more it passes exactly when every recorded
output serializes (canonical `JSON.stringify`) identically to the first
one. -/
theorem deterministic_output_characterization (results : List JSVal) :
    checkDeterministicOutput results = true ↔
      (results.length < 2 ∨ ∀ r ∈ results, jsonStr r = jsonStr results.headI) := by
  match results with
  | [] => simp [checkDeterministicOutput]
  | [r] => simp [checkDeterministicOutput]
  | r0 :: r1 :: rest =>
      simp only [checkDeterministicOutput, List.length_cons, List.headI]
      constructor
      · intro h
        right
        intro r hr
        rcases List.mem_cons.mp hr with h0 | hmem
        · rw [h0]
        · have h2 := (if_neg (by omega : ¬ (rest.length + 1 + 1 < 2))) ▸ h
          simp only [List.all_eq_true] at h2
          exact beq_iff_eq.mp (h2 r hmem)
      · intro h
        rcases h with h | h
        · omega
        · rw [if_neg (by omega : ¬ (rest.length + 1 + 1 < 2))]
          simp only [List.all_eq_true]
          intro r hr
          exact beq_iff_eq.mpr (h r (List.mem_cons_of_mem _ hr))

/-- C10: `checkFieldNamesNormalized` passes vacuously when the
declaration has no value (or a null value) under the field named by
`assertion.field`: the absent field is replaced by the empty list, whose
`every` is true. -/
theorem field_names_normalized_absent_field_passes (resolverMeta assertion : JSVal)
    (h : resolverMeta.get (jsToString (assertion.get "field")) = JSVal.undef ∨
         resolverMeta.get (jsToString (assertion.get "field")) = JSVal.null) :
    checkFieldNamesNormalized resolverMeta assertion = true := by
  rcases h with h | h <;>
    simp [checkFieldNamesNormalized, h, jsOrElse, truthy, isArray, jsElems]

/-- C10 witness: a declaration without an `inputs` field passes the
normalization check aimed at `inputs`. -/
theorem field_names_normalized_absent_field_passes_witness :
    checkFieldNamesNormalized (JSVal.obj [("resolverName", JSVal.str "bank")])
      (JSVal.obj [("field", JSVal.str "inputs")]) = true :=
  field_names_normalized_absent_field_passes
    (JSVal.obj [("resolverName", JSVal.str "bank")])
    (JSVal.obj [("field", JSVal.str "inputs")])
    (Or.inl rfl)

/-- C7: case analysis of `checkOutputFieldsMatchContract`.  A missing or
non-object top-level value yields the rich `no_output` failure; after
resolving kernel vs direct mode by presence of an `output` key, a missing
or non-object resolved value yields `invalid_output_shape`; declared
output names absent from the resolved object yield `missing_fields` with
the exact missing and expected name lists; otherwise the result is the
plain boolean `true`. -/
theorem output_fields_match_contract_characterization (output resolverMeta : JSVal) :
    (truthy output = false ∨ typeofJS output ≠ "object" →
      checkOutputFieldsMatchContract output resolverMeta =
        .obj [("passed", .bool false),
              ("details", .obj [("reason", .str "no_output"), ("actualOutput", output)])]) ∧
    (truthy output = true → typeofJS output = "object" →
      (truthy (if output.hasKey "output" then output.get "output" else output) = false ∨
          typeofJS (if output.hasKey "output" then output.get "output" else output) ≠ "object" →
        checkOutputFieldsMatchContract output resolverMeta =
          .obj [("passed", .bool false),
                ("details", .obj [("reason", .str "invalid_output_shape"),
                                  ("actualOutput", output)])]) ∧
      (truthy (if output.hasKey "output" then output.get "output" else output) = true →
        typeofJS (if output.hasKey "output" then output.get "output" else output) = "object" →
        (((jsElems (jsOrElse (resolverMeta.get "outputs") (.arr []))).map
              (fun o => o.get "name")).filter
            (fun name =>
              !((if output.hasKey "output" then output.get "output" else output).hasKey
                  (jsToString name))) ≠ [] →
          checkOutputFieldsMatchContract output resolverMeta =
            .obj [("passed", .bool false),
                  ("details", .obj [("reason", .str "missing_fields"),
                    ("missingFields", .arr
                      (((jsElems (jsOrElse (resolverMeta.get "outputs") (.arr []))).map
                            (fun o => o.get "name")).filter
                          (fun name =>
                            !((if output.hasKey "output" then output.get "output" else output).hasKey
                                (jsToString name))))),
                    ("actualOutput", if output.hasKey "output" then output.get "output" else output),
                    ("expectedFields", .arr
                      ((jsElems (jsOrElse (resolverMeta.get "outputs") (.arr []))).map
                          (fun o => o.get "name")))])]) ∧
        (((jsElems (jsOrElse (resolverMeta.get "outputs") (.arr []))).map
              (fun o => o.get "name")).filter
            (fun name =>
              !((if output.hasKey "output" then output.get "output" else output).hasKey
                  (jsToString name))) = [] →
          checkOutputFieldsMatchContract output resolverMeta = .bool true))) := by
  refine ⟨?_, fun h1 h2 => ⟨?_, fun h3 h4 => ⟨?_, ?_⟩⟩⟩
  · rintro (h | h)
    · simp [checkOutputFieldsMatchContract, h]
    · have hb : (typeofJS output != "object") = true := by simp [h]
      simp [checkOutputFieldsMatchContract, hb]
  · rintro (h3 | h3)
    · simp [checkOutputFieldsMatchContract, h1, h2, h3]
    · have hb : (typeofJS (if output.hasKey "output" then output.get "output" else output)
          != "object") = true := by simp [h3]
      simp [checkOutputFieldsMatchContract, h1, h2, hb]
  · intro h5
    have hb : (((jsElems (jsOrElse (resolverMeta.get "outputs") (.arr []))).map
        (fun o => o.get "name")).filter
        (fun name =>
          !((if output.hasKey "output" then output.get "output" else output).hasKey
              (jsToString name)))).isEmpty = false := by
      simpa [List.isEmpty_iff] using h5
    simp [checkOutputFieldsMatchContract, h1, h2, h3, h4, hb]
  · intro h5
    simp [checkOutputFieldsMatchContract, h1, h2, h3, h4, h5]

/-- C7 witness: the spec's own examples.  With declared outputs
`[{name:"balance"}]`: an actual `{balance: 10}` passes with the plain
`true`; an actual `{output:{}}` fails with reason `missing_fields` and
missing list `["balance"]`. -/
theorem output_fields_match_contract_characterization_witness :
    checkOutputFieldsMatchContract (JSVal.obj [("balance", JSVal.num 10)])
        (JSVal.obj [("outputs", JSVal.arr [JSVal.obj [("name", JSVal.str "balance")]])]) =
      JSVal.bool true ∧
    checkOutputFieldsMatchContract (JSVal.obj [("output", JSVal.obj [])])
        (JSVal.obj [("outputs", JSVal.arr [JSVal.obj [("name", JSVal.str "balance")]])]) =
      JSVal.obj [("passed", JSVal.bool false),
        ("details", JSVal.obj [("reason", JSVal.str "missing_fields"),
          ("missingFields", JSVal.arr [JSVal.str "balance"]),
          ("actualOutput", JSVal.obj []),
          ("expectedFields", JSVal.arr [JSVal.str "balance"])])] := by
  constructor
  · exact ((output_fields_match_contract_characterization
      (JSVal.obj [("balance", JSVal.num 10)])
      (JSVal.obj [("outputs", JSVal.arr [JSVal.obj [("name", JSVal.str "balance")]])])).2
      rfl rfl).2 rfl rfl |>.2 rfl
  · exact (((output_fields_match_contract_characterization
      (JSVal.obj [("output", JSVal.obj [])])
      (JSVal.obj [("outputs", JSVal.arr [JSVal.obj [("name", JSVal.str "balance")]])])).2
      rfl rfl).2 rfl rfl |>.1 (List.cons_ne_nil _ _)).trans rfl

/-- A one-assertion test spec probing `resolver_failures_valid`, used to
compare the two contract-module forms in static mode. -/
def rfvAssertion : JSVal :=
  .obj [("id", .str "fv"), ("type", .str "resolver_failures_valid")]

/-- The spec wrapping `rfvAssertion`. -/
def rfvSpec : TestSpec := { assertions := [rfvAssertion] }

/-- C6 counterexample: a declaration with a well-formed `failures` list
passes the static `resolver_failures_valid` suite when the contract
module exposes it directly, but fails when the module wraps it under a
`resolverDeclaration` field — the static branch never unwraps, so the two
accepted forms do not produce the same assertion outcomes. -/
theorem static_mode_wrapped_contract_differs :
    (staticSuiteReport rfvSpec
        (JSVal.obj [("failures",
          JSVal.arr [JSVal.obj [("code", JSVal.str "X"), ("retries", JSVal.num 1)]])])).ok = true ∧
    (staticSuiteReport rfvSpec
        (JSVal.obj [("resolverDeclaration",
          JSVal.obj [("failures",
            JSVal.arr [JSVal.obj [("code", JSVal.str "X"), ("retries", JSVal.num 1)]])])])).ok
      = false :=
  ⟨rfl, rfl⟩

/-- Auxiliary: a one-assertion report passes exactly when the assertion
contributes no failure entry. -/
theorem staticSuiteReport_single_ok (tid a : JSVal) (target : JSVal) :
    (staticSuiteReport { test_id := tid, assertions := [a] } target).ok =
      (processAssertion target (.obj []) a).isNone := by
  cases h : processAssertion target (.obj []) a <;>
    simp [staticSuiteReport, runAssertions, List.filterMap, h]

/-- Auxiliary: how `processAssertion` treats the `resolver_failures_valid`
probe on an arbitrary target. -/
theorem processAssertion_rfv (target status : JSVal) :
    processAssertion target status rfvAssertion =
      (if checkResolverFailuresValid target then none
       else some { id := rfvAssertion.get "id", severity := severityOf rfvAssertion,
                   message := failMessage target status rfvAssertion
                     (.bool (checkResolverFailuresValid target)) }) := by
  unfold processAssertion
  rw [show assertionHandlers (jsToString (rfvAssertion.get "type"))
      = some (fun t _ _ => JSVal.bool (checkResolverFailuresValid t)) from rfl]
  cases hb : checkResolverFailuresValid target <;>
    simp [normalizedPassed, typeofJS, isNull, truthy, hb]

/-- C6 (amended): in static mode the loaded contract module is validated
as-is.  For every declaration value `D`, the wrapped module
`{resolverDeclaration: D}` always fails the `resolver_failures_valid`
suite (the wrapper itself has no `failures` field), while the direct form
passes exactly when `D`'s failures are valid — so the two module forms do
not generally yield the same outcomes. -/
theorem static_mode_validates_module_as_is (D : JSVal) :
    (staticSuiteReport rfvSpec (JSVal.obj [("resolverDeclaration", D)])).ok = false ∧
    (staticSuiteReport rfvSpec D).ok = checkResolverFailuresValid D := by
  constructor
  · rfl
  · rw [show rfvSpec = { test_id := .undef, assertions := [rfvAssertion] } from rfl,
       staticSuiteReport_single_ok, processAssertion_rfv]
    cases hb : checkResolverFailuresValid D <;> simp [hb]

/-- Modelled from the claim wording for the assertion runner: an
assertion individually fails when its type is unknown to the registry, or
when its handler's normalized outcome is falsy. -/
def assertionIndividuallyFails (target status a : JSVal) : Bool :=
  match assertionHandlers (jsToString (a.get "type")) with
  | none => true
  | some handler => !truthy (normalizedPassed (handler target a status))

/-- An assertion contributes a failure entry exactly when it individually
fails. -/
theorem processAssertion_isSome (target status a : JSVal) :
    (processAssertion target status a).isSome = assertionIndividuallyFails target status a := by
  unfold processAssertion assertionIndividuallyFails
  cases h : assertionHandlers (jsToString (a.get "type")) with
  | none => simp
  | some handler =>
      cases ht : truthy (normalizedPassed (handler target a status)) <;> simp [ht]

/-- A contributed failure entry carries the assertion's own `id`. -/
theorem processAssertion_id (target status a : JSVal) (e : FailureEntry)
    (h : processAssertion target status a = some e) : e.id = a.get "id" := by
  unfold processAssertion at h
  cases hh : assertionHandlers (jsToString (a.get "type")) <;> rw [hh] at h <;> simp only [] at h
  · injection h with h2
    rw [← h2]
  · split at h
    · exact absurd h (by simp)
    · injection h with h2
      rw [← h2]

/-- The collected failures are, id for id and in order, the assertions
that individually fail. -/
theorem failures_ids (target status : JSVal) (l : List JSVal) :
    (l.filterMap (processAssertion target status)).map FailureEntry.id =
      (l.filter (fun a => assertionIndividuallyFails target status a)).map
        (fun a => a.get "id") := by
  induction l with
  | nil => rfl
  | cons a l ih =>
      rw [List.filterMap_cons, List.filter_cons]
      cases h : processAssertion target status a with
      | none =>
          have hf : assertionIndividuallyFails target status a = false := by
            rw [← processAssertion_isSome, h]
            rfl
          simp [hf, ih]
      | some e =>
          have hf : assertionIndividuallyFails target status a = true := by
            rw [← processAssertion_isSome, h]
            rfl
          simp [hf, ih, processAssertion_id target status a e h]

/-- C1: for a non-empty assertion list the runner performs no early exit:
the report's failure sequence contains exactly one entry — in spec order
— for each assertion that individually fails (unknown types included),
and the report's `ok` holds exactly when that sequence is empty. -/
theorem run_assertions_no_short_circuit (testSpec : TestSpec) (target status : JSVal)
    (h : testSpec.assertions ≠ []) :
    (runAssertions testSpec target status).failures.map FailureEntry.id =
      (testSpec.assertions.filter (fun a => assertionIndividuallyFails target status a)).map
        (fun a => a.get "id") ∧
    ((runAssertions testSpec target status).ok = true ↔
      (runAssertions testSpec target status).failures = []) := by
  have hne : testSpec.assertions.isEmpty = false := by
    simpa [List.isEmpty_iff] using h
  constructor
  · simp [runAssertions, hne, failures_ids]
  · simp [runAssertions, hne, List.isEmpty_iff]

/-- C1 witness: a three-assertion spec (an unknown type, a failing
`resolver_failures_valid`, a passing `no_global_state_mutation`) over the
empty-object target reports exactly the first two, in order. -/
theorem run_assertions_no_short_circuit_witness :
    (runAssertions
        { test_id := .undef,
          assertions :=
            [JSVal.obj [("id", JSVal.str "a1"), ("type", JSVal.str "bogus_type")],
             JSVal.obj [("id", JSVal.str "a2"), ("type", JSVal.str "resolver_failures_valid")],
             JSVal.obj [("id", JSVal.str "a3"), ("type", JSVal.str "no_global_state_mutation")]] }
        (JSVal.obj []) (JSVal.obj [])).failures.map FailureEntry.id =
      (([JSVal.obj [("id", JSVal.str "a1"), ("type", JSVal.str "bogus_type")],
         JSVal.obj [("id", JSVal.str "a2"), ("type", JSVal.str "resolver_failures_valid")],
         JSVal.obj [("id", JSVal.str "a3"), ("type", JSVal.str "no_global_state_mutation")]].filter
          (fun a => assertionIndividuallyFails (JSVal.obj []) (JSVal.obj []) a)).map
        (fun a => a.get "id")) ∧
    ((runAssertions
        { test_id := .undef,
          assertions :=
            [JSVal.obj [("id", JSVal.str "a1"), ("type", JSVal.str "bogus_type")],
             JSVal.obj [("id", JSVal.str "a2"), ("type", JSVal.str "resolver_failures_valid")],
             JSVal.obj [("id", JSVal.str "a3"), ("type", JSVal.str "no_global_state_mutation")]] }
        (JSVal.obj []) (JSVal.obj [])).ok = true ↔
      (runAssertions
        { test_id := .undef,
          assertions :=
            [JSVal.obj [("id", JSVal.str "a1"), ("type", JSVal.str "bogus_type")],
             JSVal.obj [("id", JSVal.str "a2"), ("type", JSVal.str "resolver_failures_valid")],
             JSVal.obj [("id", JSVal.str "a3"), ("type", JSVal.str "no_global_state_mutation")]] }
        (JSVal.obj []) (JSVal.obj [])).failures = []) :=
  run_assertions_no_short_circuit _ (JSVal.obj []) (JSVal.obj []) (List.cons_ne_nil _ _)

/-- Modelled from the amended claim for the harness's retry rule: the
retry count recorded for a thrown error is the first matching declared
failure's `retries` when the error's code is truthy and declared, and 0
otherwise. -/
def retryPerClaim (meta : ResolverMeta) (e : JSErr) : Int :=
  match e.code with
  | some c =>
      if c != "" then
        match (meta.failures.getD []).find? (fun f => f.code == c) with
        | some decl => decl.retries
        | none => 0
      else 0
  | none => 0

/-- Modelled from claim C9: whether the recorded error's code matches
some declared failure code. -/
def codeMatched (meta : ResolverMeta) (err : Option JSErr) : Bool :=
  match err with
  | some e =>
      match e.code with
      | some c => (meta.failures.getD []).any (fun f => f.code == c)
      | none => false
  | none => false

/-- Auxiliary: the catch block touches only `threw`, `error` and
`retryCount`. -/
theorem recordThrow_fields (meta : ResolverMeta) (err : JSErr) (ctx : InvocationContext) :
    (recordThrow meta err ctx).threw = true ∧
    (recordThrow meta err ctx).error = some err ∧
    (recordThrow meta err ctx).outputs = ctx.outputs ∧
    (recordThrow meta err ctx).output = ctx.output ∧
    (recordThrow meta err ctx).resolverMeta = ctx.resolverMeta := by
  unfold recordThrow
  cases hc : errCodeTruthy err.code
  · simp
  · cases hf : (meta.failures.getD []).find? (fun f => f.code == (err.code.getD "")) <;> simp [hf]

/-- Auxiliary: starting from a zero retry count, the catch block records
exactly the claim-side retry count. -/
theorem recordThrow_retryCount (meta : ResolverMeta) (err : JSErr) (ctx : InvocationContext)
    (h : ctx.retryCount = 0) :
    (recordThrow meta err ctx).retryCount = retryPerClaim meta err := by
  unfold recordThrow retryPerClaim
  cases hc : err.code with
  | none => simp [errCodeTruthy, hc, h]
  | some c =>
      cases hcb : (c != "")
      · simp [errCodeTruthy, hc, hcb, h]
      · cases hf : (meta.failures.getD []).find? (fun f => f.code == c) <;>
          simp [errCodeTruthy, hc, hcb, hf, h]

/-- Auxiliary: an unmatched (or absent) error code leaves the claim-side
retry count at zero. -/
theorem retryPerClaim_eq_zero (meta : ResolverMeta) (e : JSErr)
    (h : codeMatched meta (some e) = false) : retryPerClaim meta e = 0 := by
  have h2 : (match e.code with
      | some c => (meta.failures.getD []).any (fun f => f.code == c)
      | none => false) = false := h
  unfold retryPerClaim
  cases hc : e.code with
  | none => rfl
  | some c =>
      rw [hc] at h2
      have hf : (meta.failures.getD []).find? (fun f => f.code == c) = none := by
        rw [List.find?_eq_none]
        intro f hmem
        simpa using List.any_eq_false.mp h2 f hmem
      cases hcb : (c != "") <;> simp [hf]

/-- Auxiliary characterization of the trial loop for the two trial counts
the harness uses: the final context records the successful trial results
in order, stops at the first thrown error, and derives its retry count
from that error. -/
theorem observe_runs_char (r : ResolverFun) (meta : ResolverMeta) (input : JSVal)
    (runs : Nat) (hr : runs = 1 ∨ runs = 3) (ctx : InvocationContext)
    (hctx : observeTrials r meta input runs 0 { resolverMeta := meta } = ctx) :
    ctx.resolverMeta = meta ∧
    (ctx.threw = false →
      ctx.error = none ∧ ctx.retryCount = 0 ∧ ctx.outputs.length = runs ∧
      (∀ j, j < runs → r j input = Except.ok (ctx.outputs.getD j JSVal.undef)) ∧
      ctx.output = (if ctx.outputs.isEmpty then JSVal.null else ctx.outputs.getLastD JSVal.undef)) ∧
    (ctx.threw = true →
      ∃ e, ctx.error = some e ∧ ctx.outputs.length < runs ∧
        r ctx.outputs.length input = Except.error e ∧
        (∀ j, j < ctx.outputs.length → r j input = Except.ok (ctx.outputs.getD j JSVal.undef)) ∧
        ctx.retryCount = retryPerClaim meta e ∧
        ctx.output = (if ctx.outputs.isEmpty then JSVal.null else ctx.outputs.getLastD JSVal.undef)) := by
  subst hctx
  rcases hr with rfl | rfl
  · rcases h0 : r 0 input with e0 | v0
    · have hform : observeTrials r meta input 1 0 { resolverMeta := meta }
          = recordThrow meta e0 { resolverMeta := meta } := by
        simp [observeTrials, h0]
      obtain ⟨hh1, hh2, hh3, hh4, hh5⟩ := recordThrow_fields meta e0 { resolverMeta := meta }
      have hrr := recordThrow_retryCount meta e0 { resolverMeta := meta } rfl
      rw [hform]
      refine ⟨by rw [hh5], ?_, ?_⟩
      · intro hth
        rw [hh1] at hth
        cases hth
      · intro _
        refine ⟨e0, hh2, ?_, ?_, ?_, hrr, ?_⟩
        · rw [hh3]
          simp
        · rw [hh3]
          simpa using h0
        · rw [hh3]
          intro j hj
          simp at hj
        · rw [hh4, hh3]
          rfl
    · have hform : observeTrials r meta input 1 0 { resolverMeta := meta }
          = ⟨meta, v0, [v0], none, false, 0⟩ := by
        simp [observeTrials, h0]
      rw [hform]
      refine ⟨rfl, ?_, ?_⟩
      · intro _
        refine ⟨rfl, rfl, rfl, ?_, rfl⟩
        intro j hj
        interval_cases j
        simpa using h0
      · intro hth
        cases hth
  · rcases h0 : r 0 input with e0 | v0
    · have hform : observeTrials r meta input 3 0 { resolverMeta := meta }
          = recordThrow meta e0 { resolverMeta := meta } := by
        simp [observeTrials, h0]
      obtain ⟨hh1, hh2, hh3, hh4, hh5⟩ := recordThrow_fields meta e0 { resolverMeta := meta }
      have hrr := recordThrow_retryCount meta e0 { resolverMeta := meta } rfl
      rw [hform]
      refine ⟨by rw [hh5], ?_, ?_⟩
      · intro hth
        rw [hh1] at hth
        cases hth
      · intro _
        refine ⟨e0, hh2, ?_, ?_, ?_, hrr, ?_⟩
        · rw [hh3]
          simp
        · rw [hh3]
          simpa using h0
        · rw [hh3]
          intro j hj
          simp at hj
        · rw [hh4, hh3]
          rfl
    · rcases h1 : r 1 input with e1 | v1
      · have hform : observeTrials r meta input 3 0 { resolverMeta := meta }
            = recordThrow meta e1 ⟨meta, v0, [v0], none, false, 0⟩ := by
          simp [observeTrials, h0, h1]
        obtain ⟨hh1, hh2, hh3, hh4, hh5⟩ :=
          recordThrow_fields meta e1 ⟨meta, v0, [v0], none, false, 0⟩
        have hrr := recordThrow_retryCount meta e1 ⟨meta, v0, [v0], none, false, 0⟩ rfl
        rw [hform]
        refine ⟨by rw [hh5], ?_, ?_⟩
        · intro hth
          rw [hh1] at hth
          cases hth
        · intro _
          refine ⟨e1, hh2, ?_, ?_, ?_, hrr, ?_⟩
          · rw [hh3]
            simp
          · rw [hh3]
            simpa using h1
          · rw [hh3]
            intro j hj
            simp at hj
            subst hj
            simpa using h0
          · rw [hh4, hh3]
            rfl
      · rcases h2 : r 2 input with e2 | v2
        · have hform : observeTrials r meta input 3 0 { resolverMeta := meta }
              = recordThrow meta e2 ⟨meta, v1, [v0, v1], none, false, 0⟩ := by
            simp [observeTrials, h0, h1, h2]
          obtain ⟨hh1, hh2, hh3, hh4, hh5⟩ :=
            recordThrow_fields meta e2 ⟨meta, v1, [v0, v1], none, false, 0⟩
          have hrr := recordThrow_retryCount meta e2 ⟨meta, v1, [v0, v1], none, false, 0⟩ rfl
          rw [hform]
          refine ⟨by rw [hh5], ?_, ?_⟩
          · intro hth
            rw [hh1] at hth
            cases hth
          · intro _
            refine ⟨e2, hh2, ?_, ?_, ?_, hrr, ?_⟩
            · rw [hh3]
              simp
            · rw [hh3]
              simpa using h2
            · rw [hh3]
              intro j hj
              simp at hj
              interval_cases j
              · simpa using h0
              · simpa using h1
            · rw [hh4, hh3]
              rfl
        · have hform : observeTrials r meta input 3 0 { resolverMeta := meta }
              = ⟨meta, v2, [v0, v1, v2], none, false, 0⟩ := by
            simp [observeTrials, h0, h1, h2]
          rw [hform]
          refine ⟨rfl, ?_, ?_⟩
          · intro _
            refine ⟨rfl, rfl, rfl, ?_, rfl⟩
            intro j hj
            interval_cases j
            · simpa using h0
            · simpa using h1
            · simpa using h2
          · intro hth
            cases hth

/-- Auxiliary: on a successful harness run, the returned context is the
trial loop's result over the constructed input. -/
theorem invoke_ok_eq (r : ResolverFun) (meta : ResolverMeta) (spec : TestSpec)
    (fixture input : JSVal) (ctx : InvocationContext)
    (hin : constructedInput meta fixture = Except.ok input)
    (hctx : invokeResolverWithObservation r meta spec fixture = Except.ok ctx) :
    observeTrials r meta input
      (if jsStrictEq spec.test_id (JSVal.str "R-011-determinism") then 3 else 1) 0
      { resolverMeta := meta } = ctx := by
  unfold invokeResolverWithObservation at hctx
  rw [hin] at hctx
  injection hctx

/-- C2 (amended): a successful harness run performs exactly 3 sequential
trials for the determinism test id and exactly 1 otherwise; a thrown
trial records the error without appending to `outputs` and stops all
remaining trials; and `retryCount` becomes the matching declared
failure's `retries` exactly when the thrown error's code is truthy and
declared, staying 0 otherwise. -/
theorem harness_trial_count_and_retry (r : ResolverFun) (meta : ResolverMeta)
    (spec : TestSpec) (fixture input : JSVal) (ctx : InvocationContext)
    (hin : constructedInput meta fixture = Except.ok input)
    (hctx : invokeResolverWithObservation r meta spec fixture = Except.ok ctx) :
    (ctx.threw = false →
      ctx.outputs.length
          = (if jsStrictEq spec.test_id (JSVal.str "R-011-determinism") then 3 else 1) ∧
      ctx.error = none ∧ ctx.retryCount = 0 ∧
      (∀ j, j < (if jsStrictEq spec.test_id (JSVal.str "R-011-determinism") then 3 else 1) →
        r j input = Except.ok (ctx.outputs.getD j JSVal.undef))) ∧
    (ctx.threw = true →
      ∃ e, ctx.error = some e ∧
        ctx.outputs.length
            < (if jsStrictEq spec.test_id (JSVal.str "R-011-determinism") then 3 else 1) ∧
        r ctx.outputs.length input = Except.error e ∧
        (∀ j, j < ctx.outputs.length → r j input = Except.ok (ctx.outputs.getD j JSVal.undef)) ∧
        ctx.retryCount = retryPerClaim meta e) := by
  have hmain := observe_runs_char r meta input _
    (by cases jsStrictEq spec.test_id (JSVal.str "R-011-determinism") <;> simp) ctx
    (invoke_ok_eq r meta spec fixture input ctx hin hctx)
  constructor
  · intro h
    obtain ⟨herr, hretry, hlen, hall, _⟩ := hmain.2.1 h
    exact ⟨hlen, herr, hretry, hall⟩
  · intro h
    obtain ⟨e, herr, hlt, hcall, hall, hretry, _⟩ := hmain.2.2 h
    exact ⟨e, herr, hlt, hcall, hall, hretry⟩

/-- A resolver oracle that succeeds on the first trial and throws a
declared error code on the second. -/
def trialThrowsAtSecond : ResolverFun := fun i _ =>
  if i == 1 then Except.error ⟨some "E", "x"⟩ else Except.ok (.num (Int.ofNat i))

/-- A declaration declaring failure code `E` with 2 retries. -/
def metaDeclaresE : ResolverMeta := { failures := some [⟨"E", 2⟩] }

/-- The determinism test spec. -/
def determinismSpec : TestSpec := { test_id := .str "R-011-determinism" }

/-- The context the harness produces for `trialThrowsAtSecond` under the
determinism spec. -/
def ctxThrowsAtSecond : InvocationContext :=
  ⟨metaDeclaresE, .num 0, [.num 0], some ⟨some "E", "x"⟩, true, 2⟩

/-- C2 amended witness: the harness on `trialThrowsAtSecond` under the
determinism spec — one successful trial, then an early stop with
`retryCount` taken from the declared failure. -/
theorem harness_trial_count_and_retry_witness :
    (ctxThrowsAtSecond.threw = false →
      ctxThrowsAtSecond.outputs.length
          = (if jsStrictEq determinismSpec.test_id (JSVal.str "R-011-determinism") then 3 else 1) ∧
      ctxThrowsAtSecond.error = none ∧ ctxThrowsAtSecond.retryCount = 0 ∧
      (∀ j, j < (if jsStrictEq determinismSpec.test_id (JSVal.str "R-011-determinism") then 3 else 1) →
        trialThrowsAtSecond j (JSVal.obj [])
          = Except.ok (ctxThrowsAtSecond.outputs.getD j JSVal.undef))) ∧
    (ctxThrowsAtSecond.threw = true →
      ∃ e, ctxThrowsAtSecond.error = some e ∧
        ctxThrowsAtSecond.outputs.length
            < (if jsStrictEq determinismSpec.test_id (JSVal.str "R-011-determinism") then 3 else 1) ∧
        trialThrowsAtSecond ctxThrowsAtSecond.outputs.length (JSVal.obj [])
          = Except.error e ∧
        (∀ j, j < ctxThrowsAtSecond.outputs.length →
          trialThrowsAtSecond j (JSVal.obj [])
            = Except.ok (ctxThrowsAtSecond.outputs.getD j JSVal.undef)) ∧
        ctxThrowsAtSecond.retryCount = retryPerClaim metaDeclaresE e) :=
  harness_trial_count_and_retry trialThrowsAtSecond metaDeclaresE determinismSpec
    (JSVal.obj []) (JSVal.obj []) ctxThrowsAtSecond rfl rfl

/-- C2 counterexample: a thrown error whose `code` is the empty string —
which does match a declared failure code `""` with 5 retries — leaves
`retryCount` at 0, because the source only performs the lookup for a
truthy `err.code`. -/
theorem harness_retry_skips_falsy_code :
    (invokeResolverWithObservation (fun _ _ => Except.error ⟨some "", "boom"⟩)
        { failures := some [⟨"", 5⟩] } ⟨JSVal.str "t", []⟩ (JSVal.obj [])).map
      InvocationContext.retryCount = Except.ok 0 ∧
    (({ failures := some [⟨"", 5⟩] } : ResolverMeta).failures.getD []).find?
        (fun f => f.code == "") = some ⟨"", 5⟩ ∧
    (0 : Int) ≠ 5 :=
  ⟨rfl, rfl, by decide⟩

/-- Modelled from the amended claim for input construction: under the
dynamic-example marker the input is the declared `exampleAction` and a
falsy (in particular absent) `exampleAction` raises the configuration
error; otherwise the input is the fixture's literal `invoke` value when
truthy, and the empty object when `invoke` is absent or otherwise
falsy. -/
def specConstructedInput (resolverMeta : ResolverMeta) (fixture : JSVal) :
    Except HarnessError JSVal :=
  if jsStrictEq (fixture.get "invoke") (.str "__USE_RESOLVER_EXAMPLE_ACTION__") then
    if truthy resolverMeta.exampleAction then .ok resolverMeta.exampleAction
    else .error .missingExampleAction
  else if truthy (fixture.get "invoke") then .ok (fixture.get "invoke")
  else .ok (.obj [])

/-- C5 (amended): the harness is exactly the trial loop driven by the
claim-side constructed input; in particular it throws — and throws only
the missing-example configuration error — precisely when the fixture
requests the dynamic example and the declared `exampleAction` is falsy
(absent included). -/
theorem harness_input_construction (r : ResolverFun) (meta : ResolverMeta)
    (spec : TestSpec) (fixture : JSVal) :
    invokeResolverWithObservation r meta spec fixture =
      (specConstructedInput meta fixture).map (fun input =>
        observeTrials r meta input
          (if jsStrictEq spec.test_id (JSVal.str "R-011-determinism") then 3 else 1) 0
          { resolverMeta := meta }) := by
  unfold invokeResolverWithObservation constructedInput specConstructedInput jsOrElse
  cases h1 : jsStrictEq (fixture.get "invoke") (JSVal.str "__USE_RESOLVER_EXAMPLE_ACTION__")
  · cases h3 : truthy (fixture.get "invoke") <;> simp [h1, h3, Except.map]
  · cases h2 : truthy meta.exampleAction <;> simp [h1, h2, Except.map]

/-- C5 counterexample: a fixture with the falsy literal invoke value `0`.
The claim says the input is the fixture's literal invoke value, but the
echo resolver observes the empty object instead (`invoke || {}` discards
falsy values). -/
theorem harness_falsy_invoke_replaced :
    (invokeResolverWithObservation (fun _ input => Except.ok input) {}
        ⟨JSVal.str "t", []⟩ (JSVal.obj [("invoke", JSVal.num 0)])).map
      InvocationContext.output = Except.ok (JSVal.obj []) ∧
    JSVal.obj [] ≠ JSVal.num 0 :=
  ⟨rfl, fun h => JSVal.noConfusion h⟩

/-- C9: invariants of every context the harness returns: `threw` holds
exactly when an error is recorded; `outputs` lists precisely the
successful trials' results in order (all trials when nothing threw, the
prefix before the throwing trial otherwise); `output` is null when no
trial succeeded and the last element of `outputs` otherwise; and
`retryCount` is 0 unless the thrown error's code matched a declared
failure code. -/
theorem harness_context_invariant (r : ResolverFun) (meta : ResolverMeta)
    (spec : TestSpec) (fixture input : JSVal) (ctx : InvocationContext)
    (hin : constructedInput meta fixture = Except.ok input)
    (hctx : invokeResolverWithObservation r meta spec fixture = Except.ok ctx) :
    (ctx.threw = true ↔ ctx.error ≠ none) ∧
    (∀ j, j < ctx.outputs.length → r j input = Except.ok (ctx.outputs.getD j JSVal.undef)) ∧
    (ctx.threw = false →
      ctx.outputs.length
        = (if jsStrictEq spec.test_id (JSVal.str "R-011-determinism") then 3 else 1)) ∧
    (ctx.threw = true → ∃ e, ctx.error = some e ∧ r ctx.outputs.length input = Except.error e) ∧
    ctx.output = (if ctx.outputs.isEmpty then JSVal.null else ctx.outputs.getLastD JSVal.undef) ∧
    (codeMatched meta ctx.error = false → ctx.retryCount = 0) := by
  have hmain := observe_runs_char r meta input _
    (by cases jsStrictEq spec.test_id (JSVal.str "R-011-determinism") <;> simp) ctx
    (invoke_ok_eq r meta spec fixture input ctx hin hctx)
  cases hth : ctx.threw
  · obtain ⟨herr, hretry, hlen, hall, hout⟩ := hmain.2.1 hth
    refine ⟨?_, ?_, fun _ => hlen, ?_, hout, fun _ => hretry⟩
    · constructor
      · intro h
        cases h
      · intro h
        rw [herr] at h
        exact absurd rfl h
    · intro j hj
      exact hall j (by omega)
    · intro h
      cases h
  · obtain ⟨e, herr, hlt, hcall, hall, hretry, hout⟩ := hmain.2.2 hth
    refine ⟨?_, hall, ?_, fun _ => ⟨e, herr, hcall⟩, hout, ?_⟩
    · constructor
      · intro _
        rw [herr]
        simp
      · intro _
        rfl
    · intro h
      cases h
    · intro hm
      rw [hretry]
      rw [herr] at hm
      exact retryPerClaim_eq_zero meta e hm

/-- A resolver oracle returning the trial index on every trial. -/
def trialReturnsIndex : ResolverFun := fun i _ => Except.ok (.num (Int.ofNat i))

/-- The context the harness produces for `trialReturnsIndex` under the
determinism spec. -/
def ctxAllOk : InvocationContext :=
  ⟨{}, .num 2, [.num 0, .num 1, .num 2], none, false, 0⟩

/-- C9 witness: the harness on `trialReturnsIndex` under the determinism
spec satisfies every invariant of the returned context. -/
theorem harness_context_invariant_witness :
    (ctxAllOk.threw = true ↔ ctxAllOk.error ≠ none) ∧
    (∀ j, j < ctxAllOk.outputs.length →
      trialReturnsIndex j (JSVal.obj []) = Except.ok (ctxAllOk.outputs.getD j JSVal.undef)) ∧
    (ctxAllOk.threw = false →
      ctxAllOk.outputs.length
        = (if jsStrictEq determinismSpec.test_id (JSVal.str "R-011-determinism") then 3 else 1)) ∧
    (ctxAllOk.threw = true →
      ∃ e, ctxAllOk.error = some e ∧
        trialReturnsIndex ctxAllOk.outputs.length (JSVal.obj []) = Except.error e) ∧
    ctxAllOk.output
      = (if ctxAllOk.outputs.isEmpty then JSVal.null else ctxAllOk.outputs.getLastD JSVal.undef) ∧
    (codeMatched {} ctxAllOk.error = false → ctxAllOk.retryCount = 0) :=
  harness_context_invariant trialReturnsIndex {} determinismSpec
    (JSVal.obj []) (JSVal.obj []) ctxAllOk rfl rfl
